import Mathlib

/-!
Verification of the Finpay top-up monitoring dashboard (`App.py`).

The development shallowly embeds the data pipeline of the dashboard:
normalization of raw warehouse rows (pandas coercions with sentinel
values), the cascading categorical filters, the date-range filter, the
fixed per-cluster opening-balance registry, the running-balance engine
(chronological sort, per-row net change, cumulative sum), the daily
credit/debit chart series, and the full-dataset cluster summary table.

Timestamps are modelled as pairs of a day index and a within-day time
index; missing (`NaT`) timestamps are `none`.  Amounts are integers;
unparseable (`NaN`) amounts are `none`.  Pandas sums skip `NaN`, which
the embedding mirrors by summing over `filterMap`.
-/

/-- A date-time value: day index plus within-day time index
(models a pandas timestamp after `tz_localize(None)`). -/
structure DT where
  date : Nat
  time : Nat
deriving DecidableEq, Repr

/-- Boolean `≤` on date-times (lexicographic: date, then time). -/
def DT.leB (a b : DT) : Bool :=
  decide (a.date < b.date ∨ (a.date = b.date ∧ a.time ≤ b.time))

/-- The `≤` on optional timestamps; `none` (`NaT`) sorts last,
matching pandas `sort_values` default `na_position='last'`. -/
def tsLeB : Option DT → Option DT → Bool
  | some a, some b => DT.leB a b
  | some _, none => true
  | none, some _ => false
  | none, none => true

/-- A raw field value as fetched from the warehouse, before coercion:
either a parsable value, a malformed (unparseable) text, or absent. -/
inductive RawField (α : Type) where
  | valid (a : α)
  | malformed (s : String)
  | missing
deriving DecidableEq, Repr

/-- Pandas `errors='coerce'` semantics: malformed and missing values
both coerce to the null sentinel (`NaT` / `NaN`). -/
def coerceField {α : Type} : RawField α → Option α
  | .valid a => some a
  | .malformed _ => none
  | .missing => none

/-- A raw row of the `finpay_topup_joined` table
(columns `TransactionDate, Amount, TransactionType, Nama, ClusterID, Sender`). -/
structure RawRow where
  transactionDate : RawField DT
  amount : RawField Int
  transactionType : Option String
  nama : Option String
  clusterId : Option String
  sender : RawField Int
deriving DecidableEq, Repr

/-- A normalized transaction (one row of the preprocessed dataframe). -/
structure Txn where
  ts : Option DT
  amount : Option Int
  ttype : String
  nama : String
  clusterId : String
  sender : Int
deriving DecidableEq, Repr

/-- Normalization of one row (`App.py` lines 68-78):
`to_datetime(errors='coerce')`, `to_numeric(errors='coerce')`, and
`fillna` with the sentinels `tanpa_tipe`, `tanpa_nama`, `tanpa_cluster`,
and `Sender` coerced with missing mapped to 0. -/
def normalizeRow (r : RawRow) : Txn :=
  { ts := coerceField r.transactionDate
    amount := coerceField r.amount
    ttype := r.transactionType.getD "tanpa_tipe"
    nama := r.nama.getD "tanpa_nama"
    clusterId := r.clusterId.getD "tanpa_cluster"
    sender := (coerceField r.sender).getD 0 }

/-- Normalization of the fetched dataset: a pure row-wise transform,
no row is dropped and no error is raised. -/
def normalizeDf (rows : List RawRow) : List Txn :=
  rows.map normalizeRow

/-- The fixed opening-balance table `initial_balances_by_cluster`
(`App.py` lines 87-94). -/
def initial_balances_by_cluster : List (String × Int) :=
  [("411311", 33725650),
   ("421315", 50622293),
   ("421318", 22681438),
   ("421320", 52467000),
   ("421307", 64689000),
   ("421306", 48291500)]

/-- The `initial_balances_by_cluster.get(cid, 0)`: registry lookup with
default 0 for unregistered cluster ids. -/
def registryLookup (cid : String) : Int :=
  (initial_balances_by_cluster.lookup cid).getD 0

/-- The `saldo_awal` (`App.py` line 287): the opening balance for a scope is
the sum of registry entries over the selected cluster ids. -/
def saldo_awal (selectedClusterIds : List String) : Int :=
  (selectedClusterIds.map registryLookup).sum

/-- The interactive filter state: the four categorical multiselect
selections plus the two endpoints of the date range. -/
structure Selections where
  types : List String
  clusters : List String
  senders : List Int
  names : List String
  startD : Nat
  endD : Nat
deriving DecidableEq, Repr

/-- Filter stage 1 (`App.py` line 177): keep rows whose
`TransactionType` is in the selected set. -/
def stage1 (df : List Txn) (sel : Selections) : List Txn :=
  df.filter (fun t => sel.types.contains t.ttype)

/-- Filter stage 2 (`App.py` line 186): keep rows whose `ClusterID`
is in the selected set, applied to the stage-1 output. -/
def stage2 (df : List Txn) (sel : Selections) : List Txn :=
  (stage1 df sel).filter (fun t => sel.clusters.contains t.clusterId)

/-- Filter stage 3 (`App.py` line 195): keep rows whose `Sender`
is in the selected set, applied to the stage-2 output. -/
def stage3 (df : List Txn) (sel : Selections) : List Txn :=
  (stage2 df sel).filter (fun t => sel.senders.contains t.sender)

/-- Filter stage 4 (`App.py` line 204): keep rows whose `Nama`
is in the selected set, applied to the stage-3 output; this is
`filtered_df` after the categorical cascade. -/
def stage4 (df : List Txn) (sel : Selections) : List Txn :=
  (stage3 df sel).filter (fun t => sel.names.contains t.nama)

/-- The date-range predicate of `App.py` lines 290-291:
`TransactionDate.dt.date` within the closed interval; a `NaT`
timestamp compares false. -/
def datePred (startD endD : Nat) (t : Txn) : Bool :=
  match t.ts with
  | some d => startD ≤ d.date && d.date ≤ endD
  | none => false

/-- The date filter (`App.py` lines 290-291): keep rows whose date
component lies in the closed interval; rows with a `NaT` timestamp
are excluded. -/
def dateFilter (df : List Txn) (startD endD : Nat) : List Txn :=
  df.filter (datePred startD endD)

/-- The `final_filtered_df`: the categorical cascade followed by the
date-range filter. -/
def finalFiltered (df : List Txn) (sel : Selections) : List Txn :=
  dateFilter (stage4 df sel) sel.startD sel.endD

/-- Pandas column sum with default `skipna=True`: `NaN` amounts are
skipped, they do not contribute 0. -/
def sumAmounts (df : List Txn) : Int :=
  (df.filterMap (fun t => t.amount)).sum

/-- The `total_kredit_filtered` (`App.py` line 295). -/
def total_kredit_filtered (df : List Txn) : Int :=
  sumAmounts (df.filter (fun t => t.ttype == "Kredit"))

/-- The `total_debit_filtered` (`App.py` line 294). -/
def total_debit_filtered (df : List Txn) : Int :=
  sumAmounts (df.filter (fun t => t.ttype == "Debit"))

/-- The `final_balance_value` (`App.py` line 297):
`saldo_awal + (total_kredit_filtered - total_debit_filtered)`. -/
def final_balance_value (selectedClusterIds : List String) (ff : List Txn) : Int :=
  saldo_awal selectedClusterIds + (total_kredit_filtered ff - total_debit_filtered ff)

/-- The chronological-order relation used by
`sort_values('TransactionDate', ascending=True)`. -/
def tsRel (a b : Txn) : Prop := tsLeB a.ts b.ts = true

instance : DecidableRel tsRel := fun _ _ => instDecidableEqBool _ _

/-- The chronological sort of `App.py` line 369 (ascending by
`TransactionDate`). -/
def sortByDate (df : List Txn) : List Txn :=
  List.insertionSort tsRel df

/-- The `NetChange` (`App.py` lines 372-376): `+Amount` for `Kredit`,
`-Amount` for `Debit`, 0 otherwise; a `NaN` amount propagates. -/
def netChange (t : Txn) : Option Int :=
  if t.ttype == "Kredit" then t.amount
  else if t.ttype == "Debit" then t.amount.map (fun a => -a)
  else some 0

/-- The real-valued net change used when all amounts are present. -/
def netVal (t : Txn) : Int :=
  if t.ttype == "Kredit" then t.amount.getD 0
  else if t.ttype == "Debit" then -(t.amount.getD 0)
  else 0

/-- Pandas `cumsum` with default `skipna=True`: a `NaN` entry stays
`NaN` in the output but does not reset the accumulator. -/
def cumsumAux (acc : Int) : List (Option Int) → List (Option Int)
  | [] => []
  | some x :: rest => some (acc + x) :: cumsumAux (acc + x) rest
  | none :: rest => none :: cumsumAux acc rest

/-- The `RunningSaldo` (`App.py` line 379):
`saldo_awal + NetChange.cumsum()` over the sorted filtered rows. -/
def RunningSaldo (saldo : Int) (df : List Txn) : List (Option Int) :=
  (cumsumAux 0 (df.map netChange)).map (Option.map (fun c => saldo + c))

/-- The `final_balance_display` (`App.py` line 408): the last entry of the
`RunningSaldo` column of the displayed trail. -/
def final_balance_display (saldo : Int) (ff : List Txn) : Option (Option Int) :=
  (RunningSaldo saldo (sortByDate ff)).getLast?

/-- The `daily_summary` (`App.py` line 327): group by
(`TransactionDate.dt.date`, `TransactionType`), sum `Amount`; rows with
a `NaT` timestamp are dropped by the groupby, `NaN` amounts are skipped
by the sum, and no absent dates are synthesized. -/
def daily_summary (df : List Txn) : List ((Nat × String) × Int) :=
  ((df.filterMap (fun t => t.ts.map (fun d => (d.date, t.ttype)))).dedup).map
    (fun k => (k, sumAmounts (df.filter
      (fun t => (t.ts.map DT.date == some k.1) && (t.ttype == k.2)))))

/-- One row of the cluster summary table (`App.py` lines 423-469, after
the final column reorder). -/
structure SummaryRow where
  clusterId : String
  dataUpdate : Option DT
  totalKredit : Int
  totalDebit : Int
  initialBalance : Int
  runningBalance : Int
deriving DecidableEq, Repr

/-- The later of two timestamps. -/
def dtMax (a b : DT) : DT := if DT.leB a b then b else a

/-- The `df.groupby('ClusterID')['TransactionDate'].max()` for one cluster:
the latest non-null timestamp, `none` when all are `NaT`. -/
def latest_date_by_cluster (df : List Txn) (cid : String) : Option DT :=
  ((df.filter (fun t => t.clusterId == cid)).filterMap (fun t => t.ts)).foldl
    (fun acc d => some (match acc with | none => d | some m => dtMax m d)) none

/-- The `total_kredit_by_cluster` (`App.py` line 427), with the `fillna(0)`
of line 439 for clusters without credit rows. -/
def total_kredit_by_cluster (df : List Txn) (cid : String) : Int :=
  sumAmounts (df.filter (fun t => t.ttype == "Kredit" && t.clusterId == cid))

/-- The `total_debit_by_cluster` (`App.py` line 428), with the `fillna(0)`
of line 439 for clusters without debit rows. -/
def total_debit_by_cluster (df : List Txn) (cid : String) : Int :=
  sumAmounts (df.filter (fun t => t.ttype == "Debit" && t.clusterId == cid))

/-- The summary row of one cluster (`App.py` lines 434-443):
initial balance from the registry with 0 for unregistered clusters,
running balance = initial + credit - debit. -/
def summaryRowFor (df : List Txn) (cid : String) : SummaryRow :=
  { clusterId := cid
    dataUpdate := latest_date_by_cluster df cid
    totalKredit := total_kredit_by_cluster df cid
    totalDebit := total_debit_by_cluster df cid
    initialBalance := registryLookup cid
    runningBalance := registryLookup cid
      + total_kredit_by_cluster df cid - total_debit_by_cluster df cid }

/-- Character-wise lexicographic `≤` on strings (as lists of code
points). -/
def charsLe : List Char → List Char → Bool
  | [], _ => true
  | _ :: _, [] => false
  | c :: cs, d :: ds =>
    if c.toNat < d.toNat then true
    else if d.toNat < c.toNat then false
    else charsLe cs ds

/-- Lexicographic order on strings, used for the groupby key order. -/
def strRel (a b : String) : Prop := charsLe a.data b.data = true

instance : DecidableRel strRel := fun _ _ => instDecidableEqBool _ _

/-- The distinct cluster ids of the dataset in groupby order
(pandas `groupby` sorts its keys ascending). -/
def clusterKeys (df : List Txn) : List String :=
  List.insertionSort strRel ((df.map (fun t => t.clusterId)).dedup)

/-- The per-cluster rows of the summary table, one per distinct
cluster id of the full dataset. -/
def summaryRows (df : List Txn) : List SummaryRow :=
  (clusterKeys df).map (summaryRowFor df)

/-- The grand-total row (`App.py` lines 449-456): every numeric column
is the sum of that column across the cluster rows. -/
def summaryTotalRow (df : List Txn) : Int × Int × Int × Int :=
  (((summaryRows df).map (fun r => r.totalKredit)).sum,
   ((summaryRows df).map (fun r => r.totalDebit)).sum,
   ((summaryRows df).map (fun r => r.initialBalance)).sum,
   ((summaryRows df).map (fun r => r.runningBalance)).sum)

/-- The `summary_df` (`App.py` lines 423-458): the cluster rows plus the
grand-total row, computed from the full dataframe `df`, not from the
filtered one. -/
def summary_df (df : List Txn) : List SummaryRow × (Int × Int × Int × Int) :=
  (summaryRows df, summaryTotalRow df)

/-- The rendered interactive view (the `len(date_range) == 2` branch of
`App.py`, lines 283-471).  `Option` marks sections the code renders
conditionally: `none` means the section was skipped. -/
structure DashboardView where
  scorecards : Option (Int × Int × Int)
  dailyChart : Option (List ((Nat × String) × Int))
  trailTable : Option (List Txn × List (Option Int))
  finalBalance : Option (Option Int)
  emptyMessage : Bool
  summary : List SummaryRow × (Int × Int × Int × Int)
deriving DecidableEq, Repr

/-- The dashboard render pass over one normalized snapshot and one
filter selection: scorecards are always computed (lines 294-320); the
daily chart is drawn only when the filtered set has a non-null
timestamp (line 326); the trail is replaced by the empty-result warning
when the filtered set is empty (lines 365-366); the summary table is
computed from the full dataframe (line 423). -/
def renderDashboard (df : List Txn) (sel : Selections) : DashboardView :=
  let ff := finalFiltered df sel
  let saldo := saldo_awal sel.clusters
  { scorecards := some (total_kredit_filtered ff, total_debit_filtered ff,
      final_balance_value sel.clusters ff)
    dailyChart := if (ff.filter (fun t => t.ts.isSome)) = [] then none
      else some (daily_summary ff)
    trailTable := if ff = [] then none
      else some (sortByDate ff, RunningSaldo saldo (sortByDate ff))
    finalBalance := if ff = [] then none else final_balance_display saldo ff
    emptyMessage := ff.isEmpty
    summary := summary_df df }

/-- The balance the program reports for one date range of an otherwise
fixed selection (`final_balance_value` applied to the range's rows);
the opening balance it uses is always `saldo_awal sel.clusters`,
whatever the range. -/
def rangeBalance (df : List Txn) (sel : Selections) (a b : Nat) : Int :=
  final_balance_value sel.clusters (dateFilter (stage4 df sel) a b)

/-- The net change (total credit minus total debit) of one date range
of an otherwise fixed selection. -/
def netRange (df : List Txn) (sel : Selections) (a b : Nat) : Int :=
  total_kredit_filtered (dateFilter (stage4 df sel) a b)
    - total_debit_filtered (dateFilter (stage4 df sel) a b)

/-! ### Helper functions and lemmas -/

/-- Per-row credit contribution to a pandas sum (`NaN` counts 0). -/
def kContrib (t : Txn) : Int :=
  if t.ttype == "Kredit" then t.amount.getD 0 else 0

/-- Per-row debit contribution to a pandas sum (`NaN` counts 0). -/
def dContrib (t : Txn) : Int :=
  if t.ttype == "Debit" then t.amount.getD 0 else 0

/-- Cumulative sum of a list of integers starting from `acc`. -/
def cumsumIntAux (acc : Int) : List Int → List Int
  | [] => []
  | x :: rest => (acc + x) :: cumsumIntAux (acc + x) rest

theorem sumAmounts_cons (t : Txn) (df : List Txn) :
    sumAmounts (t :: df) = t.amount.getD 0 + sumAmounts df := by
  cases h : t.amount <;> simp [sumAmounts, List.filterMap_cons, h]

theorem total_kredit_cons (t : Txn) (df : List Txn) :
    total_kredit_filtered (t :: df) = kContrib t + total_kredit_filtered df := by
  by_cases h : t.ttype = "Kredit"
  · simp [total_kredit_filtered, kContrib, List.filter_cons, h, sumAmounts_cons]
  · simp [total_kredit_filtered, kContrib, List.filter_cons, h]

theorem total_debit_cons (t : Txn) (df : List Txn) :
    total_debit_filtered (t :: df) = dContrib t + total_debit_filtered df := by
  by_cases h : t.ttype = "Debit"
  · simp [total_debit_filtered, dContrib, List.filter_cons, h, sumAmounts_cons]
  · simp [total_debit_filtered, dContrib, List.filter_cons, h]

theorem total_kredit_eq_map (df : List Txn) :
    total_kredit_filtered df = (df.map kContrib).sum := by
  induction df with
  | nil => rfl
  | cons t df ih => rw [total_kredit_cons, ih]; simp

theorem total_debit_eq_map (df : List Txn) :
    total_debit_filtered df = (df.map dContrib).sum := by
  induction df with
  | nil => rfl
  | cons t df ih => rw [total_debit_cons, ih]; simp

theorem netVal_eq_contrib (t : Txn) : netVal t = kContrib t - dContrib t := by
  by_cases h1 : t.ttype = "Kredit"
  · simp [netVal, kContrib, dContrib, h1]
  · by_cases h2 : t.ttype = "Debit" <;> simp [netVal, kContrib, dContrib, h1, h2]

theorem sum_map_sub (f g : Txn → Int) (df : List Txn) :
    (df.map (fun t => f t - g t)).sum = (df.map f).sum - (df.map g).sum := by
  induction df with
  | nil => simp
  | cons t df ih => simp [ih]; ring

theorem sum_map_add (f g : Txn → Int) (df : List Txn) :
    (df.map (fun t => f t + g t)).sum = (df.map f).sum + (df.map g).sum := by
  induction df with
  | nil => simp
  | cons t df ih => simp [ih]; ring

theorem netVal_sum (df : List Txn) :
    (df.map netVal).sum = total_kredit_filtered df - total_debit_filtered df := by
  rw [total_kredit_eq_map, total_debit_eq_map, ← sum_map_sub]
  exact congrArg List.sum (List.map_congr_left (fun t _ => netVal_eq_contrib t))

theorem cumsumAux_map_some (acc : Int) (xs : List Int) :
    cumsumAux acc (xs.map some) = (cumsumIntAux acc xs).map some := by
  induction xs generalizing acc with
  | nil => rfl
  | cons x xs ih => simp [cumsumAux, cumsumIntAux, ih]

theorem cumsumIntAux_length (acc : Int) (xs : List Int) :
    (cumsumIntAux acc xs).length = xs.length := by
  induction xs generalizing acc with
  | nil => rfl
  | cons x xs ih => simp [cumsumIntAux, ih]

theorem cumsumIntAux_get (acc : Int) (xs : List Int) (i : Nat) (h : i < xs.length) :
    (cumsumIntAux acc xs)[i]? = some (acc + (xs.take (i + 1)).sum) := by
  induction xs generalizing acc i with
  | nil => simp at h
  | cons x xs ih =>
    cases i with
    | zero => simp [cumsumIntAux]
    | succ j =>
      have hj : j < xs.length := by simpa using h
      simp [cumsumIntAux, ih (acc + x) j hj, add_assoc]

theorem cumsumIntAux_getLast (acc : Int) (xs : List Int) (h : xs ≠ []) :
    (cumsumIntAux acc xs).getLast? = some (acc + xs.sum) := by
  induction xs generalizing acc with
  | nil => exact absurd rfl h
  | cons x xs ih =>
    cases xs with
    | nil => simp [cumsumIntAux]
    | cons y ys =>
      have e1 : cumsumIntAux acc (x :: y :: ys)
          = (acc + x) :: cumsumIntAux (acc + x) (y :: ys) := rfl
      have e2 : cumsumIntAux (acc + x) (y :: ys)
          = (acc + x + y) :: cumsumIntAux (acc + x + y) ys := rfl
      rw [e1, e2, List.getLast?_cons_cons, ← e2, ih (acc + x) (by simp)]
      simp [add_assoc]

instance : IsTotal Txn tsRel :=
  ⟨fun a b => by
    unfold tsRel tsLeB
    cases a.ts <;> cases b.ts <;> simp [DT.leB] <;> omega⟩

instance : IsTrans Txn tsRel :=
  ⟨fun a b c hab hbc => by
    unfold tsRel tsLeB at *
    cases ha : a.ts <;> cases hb : b.ts <;> cases hc : c.ts <;>
      rw [ha, hb] at hab <;> rw [hb, hc] at hbc <;>
      simp [DT.leB] at * <;> omega⟩

theorem sortByDate_perm (df : List Txn) : List.Perm (sortByDate df) df :=
  List.perm_insertionSort tsRel df

theorem sortByDate_sorted (df : List Txn) : List.Sorted tsRel (sortByDate df) :=
  List.sorted_insertionSort tsRel df

theorem netChange_eq_some (t : Txn) (h : t.amount ≠ none) :
    netChange t = some (netVal t) := by
  obtain ⟨a, ha⟩ := Option.ne_none_iff_exists'.mp h
  by_cases h1 : t.ttype = "Kredit"
  · simp [netChange, netVal, h1, ha]
  · by_cases h2 : t.ttype = "Debit" <;> simp [netChange, netVal, h1, h2, ha]

theorem map_netChange_eq (l : List Txn) (h : ∀ t ∈ l, t.amount ≠ none) :
    l.map netChange = (l.map netVal).map some := by
  rw [List.map_map]
  exact List.map_congr_left (fun t ht => netChange_eq_some t (h t ht))

theorem RunningSaldo_eq_int (saldo : Int) (l : List Txn) (h : ∀ t ∈ l, t.amount ≠ none) :
    RunningSaldo saldo l
      = (cumsumIntAux 0 (l.map netVal)).map (fun c => some (saldo + c)) := by
  unfold RunningSaldo
  rw [map_netChange_eq l h, cumsumAux_map_some, List.map_map]
  rfl

theorem RunningSaldo_get (saldo : Int) (l : List Txn) (h : ∀ t ∈ l, t.amount ≠ none)
    (i : Nat) (hi : i < l.length) :
    (RunningSaldo saldo l)[i]? = some (some (saldo + ((l.take (i + 1)).map netVal).sum)) := by
  rw [RunningSaldo_eq_int saldo l h, List.getElem?_map,
    cumsumIntAux_get 0 (l.map netVal) i (by simpa using hi)]
  simp [List.map_take]

theorem RunningSaldo_getLast (saldo : Int) (l : List Txn) (h : ∀ t ∈ l, t.amount ≠ none)
    (hne : l ≠ []) :
    (RunningSaldo saldo l).getLast?
      = some (some (saldo + (l.map netVal).sum)) := by
  rw [RunningSaldo_eq_int saldo l h, List.getLast?_map,
    cumsumIntAux_getLast 0 (l.map netVal) (by simpa using hne)]
  simp

theorem sum_map_filter (p : Txn → Bool) (f : Txn → Int) (df : List Txn) :
    ((df.filter p).map f).sum = (df.map (fun t => if p t then f t else 0)).sum := by
  induction df with
  | nil => simp
  | cons t df ih =>
    by_cases h : p t = true
    · simp [List.filter_cons, h, ih]
    · simp only [List.filter_cons, h]
      simp only [Bool.false_eq_true, if_false, List.map_cons, List.sum_cons, ih]
      simp [h]

theorem datePred_split (t : Txn) (a b c : Nat) (h1 : a ≤ b) (h2 : b < c) (x : Int) :
    (if datePred a c t then x else 0)
      = (if datePred a b t then x else 0) + (if datePred (b + 1) c t then x else 0) := by
  cases ht : t.ts with
  | none => simp [datePred, ht]
  | some d =>
    simp only [datePred, ht]
    by_cases hac : (a ≤ d.date ∧ d.date ≤ c)
    · by_cases hb : d.date ≤ b
      · have e1 : (decide (a ≤ d.date) && decide (d.date ≤ c)) = true := by
          simp [hac.1, hac.2]
        have e2 : (decide (a ≤ d.date) && decide (d.date ≤ b)) = true := by
          simp [hac.1, hb]
        have e3 : (decide (b + 1 ≤ d.date) && decide (d.date ≤ c)) = false := by
          simp; omega
        rw [e1, e2, e3]; simp
      · have e1 : (decide (a ≤ d.date) && decide (d.date ≤ c)) = true := by
          simp [hac.1, hac.2]
        have e2 : (decide (a ≤ d.date) && decide (d.date ≤ b)) = false := by
          simp; omega
        have e3 : (decide (b + 1 ≤ d.date) && decide (d.date ≤ c)) = true := by
          simp [hac.2]; omega
        rw [e1, e2, e3]; simp
    · have e1 : (decide (a ≤ d.date) && decide (d.date ≤ c)) = false := by
        simp; omega
      have e2 : (decide (a ≤ d.date) && decide (d.date ≤ b)) = false := by
        simp; omega
      have e3 : (decide (b + 1 ≤ d.date) && decide (d.date ≤ c)) = false := by
        simp; omega
      rw [e1, e2, e3]; simp

theorem contrib_dateFilter_split (f : Txn → Int) (df : List Txn) (a b c : Nat)
    (h1 : a ≤ b) (h2 : b < c) :
    ((dateFilter df a c).map f).sum
      = ((dateFilter df a b).map f).sum + ((dateFilter df (b + 1) c).map f).sum := by
  unfold dateFilter
  rw [sum_map_filter, sum_map_filter, sum_map_filter, ← sum_map_add]
  exact congrArg List.sum
    (List.map_congr_left (fun t _ => datePred_split t a b c h1 h2 (f t)))

theorem kredit_dateFilter_split (df : List Txn) (a b c : Nat) (h1 : a ≤ b) (h2 : b < c) :
    total_kredit_filtered (dateFilter df a c)
      = total_kredit_filtered (dateFilter df a b)
        + total_kredit_filtered (dateFilter df (b + 1) c) := by
  rw [total_kredit_eq_map, total_kredit_eq_map, total_kredit_eq_map]
  exact contrib_dateFilter_split kContrib df a b c h1 h2

theorem debit_dateFilter_split (df : List Txn) (a b c : Nat) (h1 : a ≤ b) (h2 : b < c) :
    total_debit_filtered (dateFilter df a c)
      = total_debit_filtered (dateFilter df a b)
        + total_debit_filtered (dateFilter df (b + 1) c) := by
  rw [total_debit_eq_map, total_debit_eq_map, total_debit_eq_map]
  exact contrib_dateFilter_split dContrib df a b c h1 h2

theorem total_kredit_cons_none (t : Txn) (df : List Txn) (h : t.amount = none) :
    total_kredit_filtered (t :: df) = total_kredit_filtered df := by
  rw [total_kredit_cons]
  simp [kContrib, h]

theorem total_debit_cons_none (t : Txn) (df : List Txn) (h : t.amount = none) :
    total_debit_filtered (t :: df) = total_debit_filtered df := by
  rw [total_debit_cons]
  simp [dContrib, h]

theorem not_mem_dateFilter (t : Txn) (df : List Txn) (a b : Nat) (h : t.ts = none) :
    t ∉ dateFilter df a b := by
  intro hmem
  have := (List.mem_filter.mp hmem).2
  simp [datePred, h] at this

theorem daily_summary_cons_none (t : Txn) (df : List Txn) (h : t.ts = none) :
    daily_summary (t :: df) = daily_summary df := by
  unfold daily_summary
  rw [List.filterMap_cons_none (by simp [h])]
  refine List.map_congr_left ?_
  intro k _
  rw [List.filter_cons_of_neg (by simp [h])]

theorem daily_summary_keys (df : List Txn) :
    (daily_summary df).map Prod.fst
      = (df.filterMap (fun t => t.ts.map (fun d => (d.date, t.ttype)))).dedup := by
  unfold daily_summary
  rw [List.map_map]
  exact List.map_id _

theorem daily_summary_keys_nodup (df : List Txn) :
    ((daily_summary df).map Prod.fst).Nodup := by
  rw [daily_summary_keys]
  exact List.nodup_dedup _

theorem daily_summary_mem_keys (df : List Txn) (k : Nat × String) :
    k ∈ (daily_summary df).map Prod.fst
      ↔ ∃ t ∈ df, t.ts.map (fun d => (d.date, t.ttype)) = some k := by
  rw [daily_summary_keys, List.mem_dedup, List.mem_filterMap]

theorem daily_summary_val (df : List Txn) (p : (Nat × String) × Int)
    (hp : p ∈ daily_summary df) :
    p.2 = sumAmounts (df.filter
      (fun t => (t.ts.map DT.date == some p.1.1) && (t.ttype == p.1.2))) := by
  unfold daily_summary at hp
  obtain ⟨k, _, hk⟩ := List.mem_map.mp hp
  rw [← hk]

theorem summaryRows_map_clusterId (df : List Txn) :
    (summaryRows df).map SummaryRow.clusterId = clusterKeys df := by
  unfold summaryRows
  rw [List.map_map]
  exact List.map_id _

theorem clusterKeys_nodup (df : List Txn) : (clusterKeys df).Nodup :=
  ((List.perm_insertionSort strRel _).nodup_iff).mpr (List.nodup_dedup _)

theorem mem_clusterKeys (df : List Txn) (cid : String) :
    cid ∈ clusterKeys df ↔ ∃ t ∈ df, t.clusterId = cid := by
  unfold clusterKeys
  rw [List.Perm.mem_iff (List.perm_insertionSort strRel _), List.mem_dedup,
    List.mem_map]

theorem mem_summaryRows_iff (df : List Txn) (cid : String) :
    (∃ r ∈ summaryRows df, r.clusterId = cid) ↔ ∃ t ∈ df, t.clusterId = cid := by
  rw [← mem_clusterKeys]
  constructor
  · rintro ⟨r, hr, rfl⟩
    obtain ⟨k, hk, rfl⟩ := List.mem_map.mp hr
    exact hk
  · intro hk
    exact ⟨summaryRowFor df cid, List.mem_map_of_mem (summaryRowFor df) hk, rfl⟩

theorem summaryRows_fields (df : List Txn) (r : SummaryRow) (hr : r ∈ summaryRows df) :
    r.totalKredit = total_kredit_by_cluster df r.clusterId
      ∧ r.totalDebit = total_debit_by_cluster df r.clusterId
      ∧ r.dataUpdate = latest_date_by_cluster df r.clusterId
      ∧ r.initialBalance = registryLookup r.clusterId
      ∧ r.runningBalance = r.initialBalance + r.totalKredit - r.totalDebit := by
  obtain ⟨k, _, rfl⟩ := List.mem_map.mp hr
  exact ⟨rfl, rfl, rfl, rfl, rfl⟩

theorem stage1_empty_sel (df : List Txn) (sel : Selections) (h : sel.types = []) :
    stage1 df sel = [] := by
  simp [stage1, h]

theorem stage2_empty_sel (df : List Txn) (sel : Selections) (h : sel.clusters = []) :
    stage2 df sel = [] := by
  simp [stage2, h]

theorem stage3_empty_sel (df : List Txn) (sel : Selections) (h : sel.senders = []) :
    stage3 df sel = [] := by
  simp [stage3, h]

theorem stage4_empty_sel (df : List Txn) (sel : Selections) (h : sel.names = []) :
    stage4 df sel = [] := by
  simp [stage4, h]

/-! ### Concrete scenario data -/

/-- The spec's Balance Engine scenario:
`[(t=1, Kredit, 100, cluster=A), (t=2, Debit, 30, cluster=A)]`. -/
def scenarioC1 : List Txn :=
  [⟨some ⟨1, 0⟩, some 100, "Kredit", "n", "A", 0⟩,
   ⟨some ⟨2, 0⟩, some 30, "Debit", "n", "A", 0⟩]

/-- A two-transaction snapshot on cluster 411311: a credit of 100 on
day 1 and a debit of 30 on day 2. -/
def dfPair : List Txn :=
  [⟨some ⟨1, 0⟩, some 100, "Kredit", "n", "411311", 0⟩,
   ⟨some ⟨2, 0⟩, some 30, "Debit", "n", "411311", 0⟩]

/-- A selection keeping every row of `dfPair` over days 0..9. -/
def selAll : Selections := ⟨["Kredit", "Debit"], ["411311"], [0], ["n"], 0, 9⟩

/-- The same selection restricted to the `Kredit` type only. -/
def selKreditOnly : Selections := ⟨["Kredit"], ["411311"], [0], ["n"], 0, 9⟩

/-- The same selection with an empty `Nama` selected set. -/
def selNoNames : Selections := ⟨["Kredit", "Debit"], ["411311"], [0], [], 0, 9⟩

/-! ### Claim theorems -/

/-- C1. For every filtered transaction sequence and opening balance,
the Balance Engine sorts the transactions ascending by timestamp,
assigns each row `net_change` (+amount for `Kredit`, -amount for
`Debit`, 0 otherwise), and sets the running balance at row `i` to the
opening balance plus the prefix sum of `net_change` through row `i`;
on the scenario `[(t=1, Kredit, 100), (t=2, Debit, 30)]` with opening
balance 1000 the trail is `[1100, 1070]` and the final balance is 1070. -/
theorem c1_balance_engine_prefix_sums :
    (∀ (txs : List Txn) (b : Int), (∀ t ∈ txs, t.amount ≠ none) →
      List.Perm (sortByDate txs) txs
        ∧ List.Sorted tsRel (sortByDate txs)
        ∧ ∀ i : Nat, i < (sortByDate txs).length →
            (RunningSaldo b (sortByDate txs))[i]?
              = some (some (b + (((sortByDate txs).take (i + 1)).map netVal).sum)))
    ∧ RunningSaldo 1000 (sortByDate scenarioC1) = [some 1100, some 1070]
    ∧ final_balance_display 1000 scenarioC1 = some (some 1070) := by
  refine ⟨fun txs b h => ?_, by decide, by decide⟩
  have hperm := sortByDate_perm txs
  have hall : ∀ t ∈ sortByDate txs, t.amount ≠ none :=
    fun t ht => h t (hperm.mem_iff.mp ht)
  exact ⟨hperm, sortByDate_sorted txs,
    fun i hi => RunningSaldo_get b (sortByDate txs) hall i hi⟩

/-- Witness for C1: the general statement applied to the spec scenario
with opening balance 1000, at row index 1. -/
theorem c1_balance_engine_prefix_sums_witness :
    (∀ t ∈ scenarioC1, t.amount ≠ none)
      ∧ (RunningSaldo 1000 (sortByDate scenarioC1))[1]?
          = some (some (1000 + (((sortByDate scenarioC1).take 2).map netVal).sum)) :=
  ⟨by decide,
   (c1_balance_engine_prefix_sums.1 scenarioC1 1000 (by decide)).2.2 1 (by decide)⟩

/-- C6. The opening balance for a set of cluster ids is the sum of
the fixed registry's entries over those ids, ids absent from the
registry contributing 0; for disjoint id sets the opening balance of
the union is the sum of the two opening balances. -/
theorem c6_opening_balance_additive :
    (∀ ids : List String, saldo_awal ids = (ids.map registryLookup).sum)
      ∧ (∀ cid : String, initial_balances_by_cluster.lookup cid = none →
          registryLookup cid = 0)
      ∧ (∀ s1 s2 : List String, (∀ c ∈ s1, c ∉ s2) →
          saldo_awal (s1 ++ s2) = saldo_awal s1 + saldo_awal s2) := by
  refine ⟨fun _ => rfl, fun cid h => ?_, fun s1 s2 _ => ?_⟩
  · simp [registryLookup, h]
  · simp [saldo_awal]

/-- Witness for C6: the disjoint clusters 411311 and 421315. -/
theorem c6_opening_balance_additive_witness :
    (∀ c ∈ ["411311"], c ∉ ["421315"])
      ∧ saldo_awal (["411311"] ++ ["421315"])
          = saldo_awal ["411311"] + saldo_awal ["421315"] :=
  ⟨by decide, c6_opening_balance_additive.2.2 ["411311"] ["421315"] (by decide)⟩

/-- C5. A row whose `Amount` is unparseable is kept by
normalization (no drop, no error) with the missing-amount sentinel,
which is distinct from zero, and it contributes nothing to the
`total_kredit_filtered` / `total_debit_filtered` sums. -/
theorem c5_unparseable_amount_excluded :
    ∀ (r : RawRow) (s : String), r.amount = RawField.malformed s →
      (∀ rows : List RawRow, (normalizeDf rows).length = rows.length)
        ∧ (∀ rows : List RawRow, r ∈ rows → normalizeRow r ∈ normalizeDf rows)
        ∧ (normalizeRow r).amount = none
        ∧ (normalizeRow r).amount ≠ some 0
        ∧ (∀ df : List Txn,
            total_kredit_filtered (normalizeRow r :: df) = total_kredit_filtered df
              ∧ total_debit_filtered (normalizeRow r :: df) = total_debit_filtered df) := by
  intro r s h
  have hnone : (normalizeRow r).amount = none := by simp [normalizeRow, h, coerceField]
  refine ⟨fun rows => by simp [normalizeDf],
    fun rows hr => List.mem_map_of_mem normalizeRow hr,
    hnone, by simp [hnone],
    fun df => ⟨total_kredit_cons_none _ df hnone, total_debit_cons_none _ df hnone⟩⟩

/-- Witness for C5: a raw row whose `Amount` text is `"abc"`. -/
theorem c5_unparseable_amount_excluded_witness :
    (RawRow.mk (RawField.valid ⟨1, 0⟩) (RawField.malformed "abc")
        (some "Kredit") (some "n") (some "411311") (RawField.valid 0)).amount
      = RawField.malformed "abc"
    ∧ total_kredit_filtered
        (normalizeRow (RawRow.mk (RawField.valid ⟨1, 0⟩) (RawField.malformed "abc")
          (some "Kredit") (some "n") (some "411311") (RawField.valid 0)) :: dfPair)
      = total_kredit_filtered dfPair :=
  ⟨rfl,
   ((c5_unparseable_amount_excluded _ "abc" rfl).2.2.2.2 dfPair).1⟩

/-- C9. A row whose timestamp is unparseable is kept by
normalization with the null timestamp sentinel, is excluded from
date-based filtering and from the daily chart series, and remains
present in the raw-data display (the normalized dataframe). -/
theorem c9_unparseable_timestamp_excluded :
    ∀ (r : RawRow) (s : String), r.transactionDate = RawField.malformed s →
      (normalizeRow r).ts = none
        ∧ (∀ (df : List Txn) (a b : Nat), normalizeRow r ∉ dateFilter df a b)
        ∧ (∀ df : List Txn, daily_summary (normalizeRow r :: df) = daily_summary df)
        ∧ (∀ rows : List RawRow, r ∈ rows → normalizeRow r ∈ normalizeDf rows) := by
  intro r s h
  have hnone : (normalizeRow r).ts = none := by simp [normalizeRow, h, coerceField]
  exact ⟨hnone,
    fun df a b => not_mem_dateFilter _ df a b hnone,
    fun df => daily_summary_cons_none _ df hnone,
    fun rows hr => List.mem_map_of_mem normalizeRow hr⟩

/-- Witness for C9: a raw row whose timestamp text is `"not-a-date"`. -/
theorem c9_unparseable_timestamp_excluded_witness :
    (RawRow.mk (RawField.malformed "not-a-date") (RawField.valid 50)
        (some "Kredit") (some "n") (some "411311") (RawField.valid 0)).transactionDate
      = RawField.malformed "not-a-date"
    ∧ daily_summary
        (normalizeRow (RawRow.mk (RawField.malformed "not-a-date") (RawField.valid 50)
          (some "Kredit") (some "n") (some "411311") (RawField.valid 0)) :: dfPair)
      = daily_summary dfPair :=
  ⟨rfl, (c9_unparseable_timestamp_excluded _ "not-a-date" rfl).2.2.1 dfPair⟩

/-- C2 counterexample. On a snapshot with a credit of 100 on day 1,
splitting the range [0,9] at day 1, the closing balance the program
computes for the first sub-range [0,1] (33 725 750) differs from the
opening balance it uses for the second sub-range, which is always the
registry sum `saldo_awal` (33 725 650): the program never carries a
boundary balance forward. -/
theorem c2_boundary_counterexample :
    rangeBalance dfPair selAll 0 1 ≠ saldo_awal selAll.clusters := by
  decide

/-- C2 amended. The opening balance used for any date range of a
fixed categorical selection is the registry sum `saldo_awal`, so the
closing balance of the first sub-range equals that opening balance
plus the first sub-range's net change; the final balance of the
combined range equals the opening balance plus the sum of all net
changes in the range, and the net change splits additively at any
interior boundary, independent of the chunking. -/
theorem c2_balance_additivity_amended :
    ∀ (df : List Txn) (sel : Selections) (a b c : Nat), a ≤ b → b < c →
      rangeBalance df sel a b = saldo_awal sel.clusters + netRange df sel a b
        ∧ rangeBalance df sel a c = saldo_awal sel.clusters + netRange df sel a c
        ∧ netRange df sel a c = netRange df sel a b + netRange df sel (b + 1) c := by
  intro df sel a b c h1 h2
  refine ⟨rfl, rfl, ?_⟩
  unfold netRange
  rw [kredit_dateFilter_split (stage4 df sel) a b c h1 h2,
    debit_dateFilter_split (stage4 df sel) a b c h1 h2]
  ring

/-- Witness for C2 amended: the snapshot `dfPair` over [0,9] split at
day 1. -/
theorem c2_balance_additivity_amended_witness :
    ((0 : Nat) ≤ 1 ∧ (1 : Nat) < 9)
      ∧ netRange dfPair selAll 0 9
          = netRange dfPair selAll 0 1 + netRange dfPair selAll 2 9 :=
  ⟨by decide,
   (c2_balance_additivity_amended dfPair selAll 0 1 9 (by decide) (by decide)).2.2⟩

/-- C3 counterexample. The daily chart series is computed from the
interactively filtered dataframe, not the full dataset: over the same
snapshot, selecting both types versus only `Kredit` yields different
daily series. -/
theorem c3_filter_dependence_counterexample :
    daily_summary (finalFiltered dfPair selAll)
      ≠ daily_summary (finalFiltered dfPair selKreditOnly) := by
  decide

/-- C3 amended. The daily series fed to the chart is computed over
the filtered, date-restricted dataset (so it varies with the
interactive filter state); it has one summed-amount point per
(date, type) pair occurring there, with no dates synthesized: its keys
are exactly the (date, type) pairs of filtered rows with a non-null
timestamp, without duplicates, and each point's value is the sum of
the matching rows' amounts. -/
theorem c3_daily_series_characterization :
    ∀ (df : List Txn) (sel : Selections),
      ((daily_summary (finalFiltered df sel)).map Prod.fst).Nodup
        ∧ (∀ k : Nat × String,
            k ∈ (daily_summary (finalFiltered df sel)).map Prod.fst
              ↔ ∃ t ∈ finalFiltered df sel,
                  t.ts.map (fun d => (d.date, t.ttype)) = some k)
        ∧ (∀ p ∈ daily_summary (finalFiltered df sel),
            p.2 = sumAmounts ((finalFiltered df sel).filter
              (fun t => (t.ts.map DT.date == some p.1.1) && (t.ttype == p.1.2)))) :=
  fun df sel =>
    ⟨daily_summary_keys_nodup (finalFiltered df sel),
     daily_summary_mem_keys (finalFiltered df sel),
     daily_summary_val (finalFiltered df sel)⟩

/-- Witness for C3 amended: the point ((day 1, Kredit), 100) of the
`dfPair` series under the all-inclusive selection. -/
theorem c3_daily_series_characterization_witness :
    (((1, "Kredit"), (100 : Int)) ∈ daily_summary (finalFiltered dfPair selAll))
      ∧ (((1, "Kredit"), (100 : Int)).2
          = sumAmounts ((finalFiltered dfPair selAll).filter
              (fun t => (t.ts.map DT.date == some 1) && (t.ttype == "Kredit")))) :=
  ⟨by decide,
   (c3_daily_series_characterization dfPair selAll).2.2
     ((1, "Kredit"), (100 : Int)) (by decide)⟩

/-- C8 counterexample. With an empty `Nama` selected set the
filtered result is empty, yet the scorecard aggregation still runs
(the section is rendered with zero totals): not every downstream
aggregation step is skipped. -/
theorem c8_scorecards_not_skipped_counterexample :
    finalFiltered dfPair selNoNames = []
      ∧ (renderDashboard dfPair selNoNames).scorecards ≠ none := by
  constructor
  · decide
  · decide

/-- C8 amended. An empty selected set at any filter stage yields an
empty result for that stage (not select-all); when the fully filtered
set is empty, the daily chart and the balance trail are skipped and a
distinct empty-result message is surfaced instead of a trail, without
error, while the scorecard totals are still computed over the empty
set, yielding zero credit, zero debit, and a balance equal to the
opening balance. -/
theorem c8_empty_result_handling :
    ∀ (df : List Txn) (sel : Selections),
      (sel.types = [] → stage1 df sel = [])
        ∧ (sel.clusters = [] → stage2 df sel = [])
        ∧ (sel.senders = [] → stage3 df sel = [])
        ∧ (sel.names = [] → stage4 df sel = [])
        ∧ (finalFiltered df sel = [] →
            (renderDashboard df sel).dailyChart = none
              ∧ (renderDashboard df sel).trailTable = none
              ∧ (renderDashboard df sel).finalBalance = none
              ∧ (renderDashboard df sel).emptyMessage = true
              ∧ (renderDashboard df sel).scorecards
                  = some (0, 0, saldo_awal sel.clusters)) := by
  intro df sel
  refine ⟨stage1_empty_sel df sel, stage2_empty_sel df sel,
    stage3_empty_sel df sel, stage4_empty_sel df sel, fun h => ?_⟩
  unfold renderDashboard
  rw [h]
  simp [final_balance_value, total_kredit_filtered, total_debit_filtered, sumAmounts]

/-- Witness for C8 amended: the empty-names selection over `dfPair`. -/
theorem c8_empty_result_handling_witness :
    finalFiltered dfPair selNoNames = []
      ∧ (renderDashboard dfPair selNoNames).trailTable = none
      ∧ (renderDashboard dfPair selNoNames).emptyMessage = true :=
  ⟨by decide,
   ((c8_empty_result_handling dfPair selNoNames).2.2.2.2 (by decide)).2.1,
   ((c8_empty_result_handling dfPair selNoNames).2.2.2.2 (by decide)).2.2.2.1⟩

/-- C7. The cluster summary is computed from the full dataset and
is therefore identical under any two interactive filter selections; it
has one row per distinct cluster id of the dataset, each row carrying
the cluster's total credit, total debit, latest timestamp, registry
opening balance (0 when unregistered), and closing balance
`opening + credit - debit`; the grand-total row's numeric columns are
sums of the corresponding columns across the cluster rows. -/
theorem c7_cluster_summary_independence :
    ∀ (df : List Txn) (sel1 sel2 : Selections),
      (renderDashboard df sel1).summary = (renderDashboard df sel2).summary
        ∧ ((summaryRows df).map SummaryRow.clusterId).Nodup
        ∧ (∀ cid : String,
            (∃ r ∈ summaryRows df, r.clusterId = cid) ↔ ∃ t ∈ df, t.clusterId = cid)
        ∧ (∀ r ∈ summaryRows df,
            r.totalKredit = total_kredit_by_cluster df r.clusterId
              ∧ r.totalDebit = total_debit_by_cluster df r.clusterId
              ∧ r.dataUpdate = latest_date_by_cluster df r.clusterId
              ∧ r.initialBalance = registryLookup r.clusterId
              ∧ r.runningBalance = r.initialBalance + r.totalKredit - r.totalDebit)
        ∧ summary_df df
            = (summaryRows df,
               (((summaryRows df).map (fun r => r.totalKredit)).sum,
                ((summaryRows df).map (fun r => r.totalDebit)).sum,
                ((summaryRows df).map (fun r => r.initialBalance)).sum,
                ((summaryRows df).map (fun r => r.runningBalance)).sum)) := by
  intro df sel1 sel2
  refine ⟨rfl, ?_, mem_summaryRows_iff df, fun r hr => summaryRows_fields df r hr, rfl⟩
  rw [summaryRows_map_clusterId]
  exact clusterKeys_nodup df

/-- Witness for C7: cluster 411311 of `dfPair` has a summary row. -/
theorem c7_cluster_summary_independence_witness :
    (∃ t ∈ dfPair, t.clusterId = "411311")
      ∧ (∃ r ∈ summaryRows dfPair, r.clusterId = "411311") :=
  ⟨by decide,
   ((c7_cluster_summary_independence dfPair selAll selKreditOnly).2.2.1 "411311").mpr
     (by decide)⟩

/-- C10. Whenever the date-filtered set is non-empty and every
amount parsed, the scorecard balance
`saldo_awal + total_kredit - total_debit` coincides with the last
entry of the running-balance trail displayed as the Final Balance. -/
theorem c10_scorecard_matches_trail :
    ∀ (df : List Txn) (sel : Selections),
      finalFiltered df sel ≠ [] →
      (∀ t ∈ finalFiltered df sel, t.amount ≠ none) →
      final_balance_display (saldo_awal sel.clusters) (finalFiltered df sel)
        = some (some (final_balance_value sel.clusters (finalFiltered df sel))) := by
  intro df sel hne hall
  have hperm := sortByDate_perm (finalFiltered df sel)
  have hall2 : ∀ t ∈ sortByDate (finalFiltered df sel), t.amount ≠ none :=
    fun t ht => hall t (hperm.mem_iff.mp ht)
  have hne2 : sortByDate (finalFiltered df sel) ≠ [] := by
    intro h0
    apply hne
    have hl := hperm.length_eq
    rw [h0] at hl
    exact (List.length_eq_zero.mp hl.symm)
  unfold final_balance_display
  rw [RunningSaldo_getLast _ _ hall2 hne2, (hperm.map netVal).sum_eq, netVal_sum]
  rfl

/-- Witness for C10: `dfPair` under the all-inclusive selection. -/
theorem c10_scorecard_matches_trail_witness :
    (finalFiltered dfPair selAll ≠ []
        ∧ ∀ t ∈ finalFiltered dfPair selAll, t.amount ≠ none)
      ∧ final_balance_display (saldo_awal selAll.clusters) (finalFiltered dfPair selAll)
          = some (some (final_balance_value selAll.clusters (finalFiltered dfPair selAll))) :=
  ⟨⟨by decide, by decide⟩,
   c10_scorecard_matches_trail dfPair selAll (by decide) (by decide)⟩
